import Mathlib

/-!
Shallow embedding of the pushprom-python-client library
(`credentials.py`, `errors.py`, `metric_senders.py`).

Python dynamic values are embedded as follows:
* the `labels` argument of `send` is either a genuine dict
  (`Labels.dict`, an association list of string pairs) or some other
  Python value that supports `len` (`Labels.nonDict`, carrying its length),
  mirroring exactly the two observations the code makes on `labels`
  (`isinstance(labels, dict)` and `len(labels)`);
* the `help_string` argument is either a genuine `str` (`PyStrArg.str`)
  or some non-string value (`PyStrArg.nonStr`), mirroring the
  `isinstance(help_string, str)` observation;
* numeric values (Python `int`/`float`) are embedded as `Rat`;
* raised exceptions become `Except` error results (`PyError`);
* the HTTP layer (`requests.post`) is an environment function
  `net : HttpPost → Response`, and each send operation returns the list
  of POST requests it issued, in order, alongside its result.
-/

/-- Embedding of an HTTP response returned by `requests.post`.  The
library never inspects it, so its shape is irrelevant; we keep a status
code and a body so that distinct responses are distinguishable. -/
structure Response where
  statusCode : Nat
  body : String
deriving DecidableEq, Repr

/-- The `labels` argument of `send`, as observed by the code: a real
Python dict, or any other value supporting `len`. -/
inductive Labels where
  | dict (entries : List (String × String))
  | nonDict (length : Nat)
deriving DecidableEq, Repr

/-- `isinstance(labels, dict)`. -/
def Labels.isDict : Labels → Bool
  | .dict _ => true
  | .nonDict _ => false

/-- `len(labels)`. -/
def Labels.len : Labels → Nat
  | .dict entries => entries.length
  | .nonDict n => n

/-- The `help_string` argument as observed by the constructor:
a genuine Python `str`, or some non-string value. -/
inductive PyStrArg where
  | str (s : String)
  | nonStr
deriving DecidableEq, Repr

/-- The exceptions the library can raise.  `NoLabelsError` and
`NotSortedError` come from `errors.py` (both subclass `ValueError`);
`ValueError`, `TypeError` and `NotImplementedError` are Python builtins
raised directly by `metric_senders.py`. -/
inductive PyError where
  | valueError (msg : String)
  | typeError (msg : String)
  | noLabelsError (msg : String)
  | notSortedError (msg : String)
  | notImplementedError (msg : String)
deriving DecidableEq, Repr

/-- `credentials.py`: a host/port pair. -/
structure Credentials where
  host : String
  port : String
deriving DecidableEq, Repr

/-- The `address` property: `f"http://{self.host}:{self.port}"`. -/
def Credentials.address (self : Credentials) : String :=
  "http://" ++ self.host ++ ":" ++ self.port

/-- The JSON body assembled by `BasePushpromMetricSender.send`. -/
structure JsonBody where
  type : String
  name : String
  help : String
  method : String
  value : Rat
  labels : Labels
deriving DecidableEq, Repr

/-- One HTTP POST as issued by `requests.post(self.url, json=json)`. -/
structure HttpPost where
  url : String
  json : JsonBody
deriving DecidableEq, Repr

/-- The fields of a constructed `BasePushpromMetricSender`. -/
structure BasePushpromMetricSender where
  url : String
  metric_name : String
  metric_type : String
  help : String
deriving DecidableEq, Repr

namespace BasePushpromMetricSender

/-- `BasePushpromMetricSender.__init__`.  Checks run in source order:
empty `metric_name` raises `ValueError`; an unrecognized `metric_type`
is silently replaced by `"gauge"`; a non-string `help_string` raises
`TypeError`. -/
def init (credentials : Credentials) (metric_name : String)
    (help_string : PyStrArg) (metric_type : String) :
    Except PyError BasePushpromMetricSender :=
  let url := credentials.address
  if metric_name.length > 0 then
    let mt :=
      if metric_type = "counter" ∨ metric_type = "gauge" ∨
          metric_type = "histogram" ∨ metric_type = "summary" then
        metric_type
      else
        "gauge"
    match help_string with
    | .str s => .ok ⟨url, metric_name, mt, s⟩
    | .nonStr => .error (.typeError "Field help should be str.")
  else
    .error (.valueError "Field metric_name should not be empty!")

/-- `BasePushpromMetricSender.send`.  Returns the list of HTTP POSTs
issued (in order) together with the call's outcome.  Note the source's
inverted `isinstance` check: it raises `NoLabelsError` precisely when
`labels` IS a dict. -/
def send (self : BasePushpromMetricSender) (value : Rat) (labels : Labels)
    (net : HttpPost → Response) :
    List HttpPost × Except PyError Response :=
  if labels.isDict then
    ([], .error (.noLabelsError
      "Can not send metrics: labels should be a type of dict."))
  else if labels.len < 1 then
    ([], .error (.noLabelsError "Can not send metrics: no labels provided."))
  else
    let json : JsonBody :=
      ⟨self.metric_type, self.metric_name, self.help, "add", value, labels⟩
    let post : HttpPost := ⟨self.url, json⟩
    ([post], .ok (net post))

end BasePushpromMetricSender

/-- The `Gauge` subclass: base fields plus the private float
accumulator `__counter`. -/
structure Gauge where
  base : BasePushpromMetricSender
  counter : Rat
deriving DecidableEq, Repr

namespace Gauge

/-- `Gauge.__init__`: delegates to the base constructor with
`metric_type="gauge"` and sets the accumulator to `0.0`. -/
def init (credentials : Credentials) (metric_name : String)
    (help_string : PyStrArg) : Except PyError Gauge :=
  (BasePushpromMetricSender.init credentials metric_name help_string
    "gauge").map (fun base => ⟨base, 0⟩)

/-- `Gauge.increase_by`: `self.__counter += value`. -/
def increase_by (self : Gauge) (value : Rat) : Gauge :=
  { self with counter := self.counter + value }

/-- `Gauge.decrease_by`: `self.__counter -= value`. -/
def decrease_by (self : Gauge) (value : Rat) : Gauge :=
  { self with counter := self.counter - value }

/-- `Gauge.send_gauge`: delegates to `send` with the current
accumulator.  The first component is the gauge's state after the call
(the method body performs no mutation). -/
def send_gauge (self : Gauge) (labels : Labels) (net : HttpPost → Response) :
    Gauge × List HttpPost × Except PyError Response :=
  (self, self.base.send self.counter labels net)

end Gauge

/-- The `Counter` subclass: base fields plus the private integer
accumulator `__counter`. -/
structure Counter where
  base : BasePushpromMetricSender
  counter : Int
deriving DecidableEq, Repr

namespace Counter

/-- `Counter.__init__`: delegates to the base constructor with
`metric_type="counter"` and sets the accumulator to `0`. -/
def init (credentials : Credentials) (metric_name : String)
    (help_string : PyStrArg) : Except PyError Counter :=
  (BasePushpromMetricSender.init credentials metric_name help_string
    "counter").map (fun base => ⟨base, 0⟩)

/-- `Counter.increase`: `self.__counter += 1`. -/
def increase (self : Counter) : Counter :=
  { self with counter := self.counter + 1 }

/-- `Counter.reset`: `self.__counter = 0`. -/
def reset (self : Counter) : Counter :=
  { self with counter := 0 }

/-- `Counter.send_counter`: delegates to `send` with the current
accumulator.  The first component is the counter's state after the call
(the method body performs no mutation). -/
def send_counter (self : Counter) (labels : Labels)
    (net : HttpPost → Response) :
    Counter × List HttpPost × Except PyError Response :=
  (self, self.base.send (self.counter : Rat) labels net)

end Counter

/-- The `Histogram` subclass.  Its constructor raises
`NotImplementedError` on its first line, before any field is assigned,
so no instance is ever produced; the fields after the `raise` are dead
code. -/
structure Histogram where
  base : BasePushpromMetricSender
deriving DecidableEq, Repr

namespace Histogram

/-- `Histogram.__init__`: unconditionally raises `NotImplementedError`
regardless of its arguments (`buckets_bounds` has a default but the
value never matters). -/
def init (_credentials : Credentials) (_metric_name : String)
    (_help_string : PyStrArg) (_buckets_bounds : List Rat) :
    Except PyError Histogram :=
  .error (.notImplementedError "Kindly sorry: this class is not implemented yet.")

end Histogram

/-- The `Summary` subclass.  Its constructor raises
`NotImplementedError` on its first line, so no instance is ever
produced. -/
structure Summary where
  base : BasePushpromMetricSender
deriving DecidableEq, Repr

namespace Summary

/-- `Summary.__init__`: unconditionally raises `NotImplementedError`
regardless of its arguments. -/
def init (_credentials : Credentials) (_metric_name : String)
    (_help_string : PyStrArg) : Except PyError Summary :=
  .error (.notImplementedError "Kindly sorry: this class is not implemented yet.")

end Summary

/-! ## Helper lemmas -/

/-- A string has positive length exactly when it is non-empty. -/
theorem length_pos_iff_ne_empty (s : String) : 0 < s.length ↔ s ≠ "" := by
  cases s with
  | mk data => cases data <;> simp [String.length, String.ext_iff]

/-- Exact shape of a successful base-constructor call: with a non-empty
name and a genuine string help, construction succeeds and stores the
credentials' address, the name, the (possibly coerced) type and the
help text. -/
theorem base_init_ok (credentials : Credentials)
    (metric_name : String) (s : String) (metric_type : String)
    (hname : metric_name ≠ "") :
    BasePushpromMetricSender.init credentials metric_name (.str s) metric_type
      = .ok ⟨credentials.address, metric_name,
          if metric_type = "counter" ∨ metric_type = "gauge" ∨
              metric_type = "histogram" ∨ metric_type = "summary" then
            metric_type
          else "gauge", s⟩ := by
  have hlen : 0 < metric_name.length :=
    (length_pos_iff_ne_empty metric_name).mpr hname
  unfold BasePushpromMetricSender.init
  simp [hlen]

/-- Exact shape of a successful `Counter` construction. -/
theorem counter_init_ok (credentials : Credentials) (metric_name : String)
    (s : String) (hname : metric_name ≠ "") :
    Counter.init credentials metric_name (.str s)
      = .ok ⟨⟨credentials.address, metric_name, "counter", s⟩, 0⟩ := by
  unfold Counter.init
  rw [base_init_ok credentials metric_name s "counter" hname]
  rfl

/-- Exact shape of a successful `Gauge` construction. -/
theorem gauge_init_ok (credentials : Credentials) (metric_name : String)
    (s : String) (hname : metric_name ≠ "") :
    Gauge.init credentials metric_name (.str s)
      = .ok ⟨⟨credentials.address, metric_name, "gauge", s⟩, 0⟩ := by
  unfold Gauge.init
  rw [base_init_ok credentials metric_name s "gauge" hname]
  rfl

/-! ## Claim theorems -/

/-- C9: For every host string and port string, `Credentials(host,
port).address` equals `"http://" ++ host ++ ":" ++ port`, with host and
port stored verbatim and no side effects (`address` is a pure
function); in particular `Credentials("localhost", "9091").address =
"http://localhost:9091"`. -/
theorem c9_credentials_address (host port : String) :
    (Credentials.mk host port).address = "http://" ++ host ++ ":" ++ port ∧
    (Credentials.mk host port).host = host ∧
    (Credentials.mk host port).port = port ∧
    (Credentials.mk "localhost" "9091").address = "http://localhost:9091" :=
  ⟨rfl, rfl, rfl, rfl⟩

/-- C4: Construction of `BasePushpromMetricSender` raises a
`ValueError` iff `metric_name` is empty; for non-empty `metric_name` it
raises a `TypeError` iff `help_string` is not a string; and for every
non-empty `metric_name` and string `help_string` construction
succeeds. -/
theorem c4_constructor_errors (credentials : Credentials)
    (metric_name : String) (help_string : PyStrArg) (metric_type : String) :
    ((∃ msg, BasePushpromMetricSender.init credentials metric_name help_string
        metric_type = .error (.valueError msg)) ↔ metric_name = "") ∧
    (metric_name ≠ "" →
      ((∃ msg, BasePushpromMetricSender.init credentials metric_name help_string
          metric_type = .error (.typeError msg)) ↔ help_string = .nonStr)) ∧
    (metric_name ≠ "" → ∀ s, help_string = .str s →
      ∃ sender, BasePushpromMetricSender.init credentials metric_name help_string
        metric_type = .ok sender) := by
  by_cases hname : metric_name = ""
  · subst hname
    unfold BasePushpromMetricSender.init
    simp
  · have hlen : 0 < metric_name.length :=
      (length_pos_iff_ne_empty metric_name).mpr hname
    unfold BasePushpromMetricSender.init
    cases help_string <;> simp [hlen, hname]

/-- Witness for C4 at concrete inputs. -/
theorem c4_constructor_errors_witness :
    ∃ sender, BasePushpromMetricSender.init ⟨"localhost", "9091"⟩ "requests_total"
      (.str "Total requests.") "counter" = .ok sender :=
  (c4_constructor_errors ⟨"localhost", "9091"⟩ "requests_total"
    (.str "Total requests.") "counter").2.2 (by decide) "Total requests." rfl

/-- C5: With non-empty name and string help, an unrecognized
`metric_type` string is silently coerced to `"gauge"` (construction
still succeeds), while each of the four recognized tags is stored
unchanged. -/
theorem c5_metric_type_fallback (credentials : Credentials)
    (metric_name : String) (s : String) (metric_type : String)
    (hname : metric_name ≠ "") :
    (metric_type ∉ (["counter", "gauge", "histogram", "summary"] : List String) →
      ∃ sender, BasePushpromMetricSender.init credentials metric_name (.str s)
          metric_type = .ok sender ∧ sender.metric_type = "gauge") ∧
    (metric_type ∈ (["counter", "gauge", "histogram", "summary"] : List String) →
      ∃ sender, BasePushpromMetricSender.init credentials metric_name (.str s)
          metric_type = .ok sender ∧ sender.metric_type = metric_type) := by
  rw [base_init_ok credentials metric_name s metric_type hname]
  constructor
  · intro hmt
    simp only [List.mem_cons, List.not_mem_nil, or_false] at hmt
    push_neg at hmt
    obtain ⟨h1, h2, h3, h4⟩ := hmt
    refine ⟨_, rfl, ?_⟩
    simp [h1, h2, h3, h4]
  · intro hmt
    simp only [List.mem_cons, List.not_mem_nil, or_false] at hmt
    refine ⟨_, rfl, ?_⟩
    simp [hmt]

/-- Witness for C5: the unrecognized tag `"bogus"` yields kind
`"gauge"`, and the recognized tag `"counter"` is kept. -/
theorem c5_metric_type_fallback_witness :
    (∃ sender, BasePushpromMetricSender.init ⟨"localhost", "9091"⟩ "m" (.str "h")
        "bogus" = .ok sender ∧ sender.metric_type = "gauge") ∧
    (∃ sender, BasePushpromMetricSender.init ⟨"localhost", "9091"⟩ "m" (.str "h")
        "counter" = .ok sender ∧ sender.metric_type = "counter") :=
  ⟨(c5_metric_type_fallback ⟨"localhost", "9091"⟩ "m" "h" "bogus"
      (by decide)).1 (by decide),
   (c5_metric_type_fallback ⟨"localhost", "9091"⟩ "m" "h" "counter"
      (by decide)).2 (by decide)⟩

/-- C6: A freshly constructed `Counter` has accumulator `0`; calling
`increase` N times yields accumulator `N`; calling `reset` on any
counter at any point yields accumulator `0`. -/
theorem c6_counter_lifecycle (credentials : Credentials)
    (metric_name : String) (s : String) (c : Counter)
    (h : Counter.init credentials metric_name (.str s) = .ok c) :
    c.counter = 0 ∧
    (∀ N : ℕ, (Counter.increase^[N] c).counter = N) ∧
    (∀ c' : Counter, c'.reset.counter = 0) := by
  have hname : metric_name ≠ "" := by
    intro hcontra
    subst hcontra
    unfold Counter.init BasePushpromMetricSender.init at h
    simp [Except.map] at h
  rw [counter_init_ok credentials metric_name s hname] at h
  have hc : c.counter = 0 := by
    simp only [Except.ok.injEq] at h
    rw [← h]
  refine ⟨hc, ?_, ?_⟩
  · intro N
    induction N with
    | zero => simpa using hc
    | succ n ih =>
      rw [Function.iterate_succ_apply']
      simp [Counter.increase, ih]
  · intro c'
    rfl

/-- Witness for C6 at a concrete `Counter` and `N = 3`. -/
theorem c6_counter_lifecycle_witness :
    (Counter.increase^[3]
      (Counter.mk ⟨"http://localhost:9091", "m", "counter", "h"⟩ 0)).counter = 3 :=
  (c6_counter_lifecycle ⟨"localhost", "9091"⟩ "m" "h"
    (Counter.mk ⟨"http://localhost:9091", "m", "counter", "h"⟩ 0) (by rfl)).2.1 3

/-- C7: A freshly constructed `Gauge` has accumulator `0.0`; for every
gauge, `increase_by v` adds `v` to the accumulator and `decrease_by v`
subtracts `v`; in particular `increase_by 3.5` then `decrease_by 1.0`
on a fresh gauge yields accumulator `2.5`. -/
theorem c7_gauge_lifecycle (credentials : Credentials)
    (metric_name : String) (s : String) (g : Gauge)
    (h : Gauge.init credentials metric_name (.str s) = .ok g) :
    g.counter = 0 ∧
    (∀ g' : Gauge, ∀ v : Rat,
      (g'.increase_by v).counter = g'.counter + v ∧
      (g'.decrease_by v).counter = g'.counter - v) ∧
    ((g.increase_by (7 / 2)).decrease_by 1).counter = 5 / 2 := by
  have hname : metric_name ≠ "" := by
    intro hcontra
    subst hcontra
    unfold Gauge.init BasePushpromMetricSender.init at h
    simp [Except.map] at h
  rw [gauge_init_ok credentials metric_name s hname] at h
  have hg : g.counter = 0 := by
    simp only [Except.ok.injEq] at h
    rw [← h]
  refine ⟨hg, fun g' v => ⟨rfl, rfl⟩, ?_⟩
  simp [Gauge.increase_by, Gauge.decrease_by, hg]
  norm_num

/-- Witness for C7 at a concrete `Gauge`. -/
theorem c7_gauge_lifecycle_witness :
    (((Gauge.mk ⟨"http://localhost:9091", "m", "gauge", "h"⟩ 0).increase_by
      (7 / 2)).decrease_by 1).counter = 5 / 2 :=
  (c7_gauge_lifecycle ⟨"localhost", "9091"⟩ "m" "h"
    (Gauge.mk ⟨"http://localhost:9091", "m", "gauge", "h"⟩ 0) (by rfl)).2.2

/-- C8: For every combination of constructor arguments, constructing a
`Histogram` or a `Summary` raises `NotImplementedError`, so no usable
instance of either type is ever observable. -/
theorem c8_stub_constructors (credentials : Credentials)
    (metric_name : String) (help_string : PyStrArg)
    (buckets_bounds : List Rat) :
    Histogram.init credentials metric_name help_string buckets_bounds
      = .error (.notImplementedError
          "Kindly sorry: this class is not implemented yet.") ∧
    Summary.init credentials metric_name help_string
      = .error (.notImplementedError
          "Kindly sorry: this class is not implemented yet.") ∧
    (¬ ∃ hist, Histogram.init credentials metric_name help_string
        buckets_bounds = .ok hist) ∧
    (¬ ∃ summ, Summary.init credentials metric_name help_string = .ok summ) := by
  refine ⟨rfl, rfl, ?_, ?_⟩ <;> rintro ⟨x, hx⟩ <;> simp [Histogram.init, Summary.init] at hx

/-- Witness for C8 at concrete constructor arguments. -/
theorem c8_stub_constructors_witness :
    Histogram.init ⟨"localhost", "9091"⟩ "latency" (.str "Latency.") []
      = .error (.notImplementedError
          "Kindly sorry: this class is not implemented yet.") ∧
    Summary.init ⟨"localhost", "9091"⟩ "latency" (.str "Latency.")
      = .error (.notImplementedError
          "Kindly sorry: this class is not implemented yet.") :=
  ⟨(c8_stub_constructors ⟨"localhost", "9091"⟩ "latency" (.str "Latency.") []).1,
   (c8_stub_constructors ⟨"localhost", "9091"⟩ "latency" (.str "Latency.") []).2.1⟩

/-- C3: Calling `send` (or `Counter.send_counter` / `Gauge.send_gauge`)
with an empty dict as labels raises `NoLabelsError`, regardless of the
value. -/
theorem c3_empty_labels_rejected (self : BasePushpromMetricSender)
    (value : Rat) (net : HttpPost → Response) (c : Counter) (g : Gauge) :
    (∃ msg, (self.send value (.dict []) net).2 = .error (.noLabelsError msg)) ∧
    (∃ msg, (c.send_counter (.dict []) net).2.2 = .error (.noLabelsError msg)) ∧
    (∃ msg, (g.send_gauge (.dict []) net).2.2 = .error (.noLabelsError msg)) :=
  ⟨⟨_, rfl⟩, ⟨_, rfl⟩, ⟨_, rfl⟩⟩

/-- C1: Evidence against the claim. The claim says a send with a
non-empty string-to-string dict as labels raises no error and issues
one POST; but because the `isinstance` check in the source is inverted
(it raises precisely when `labels` IS a dict), the call raises
`NoLabelsError` and issues no POST.  Evaluated at a concrete sender,
value `1` and labels `{"job": "app"}`. -/
theorem c1_send_with_dict_raises :
    (BasePushpromMetricSender.mk "http://localhost:9091" "requests_total"
        "counter" "Total requests.").send 1 (.dict [("job", "app")])
      (fun _ => ⟨200, "ok"⟩)
    = ([], .error (.noLabelsError
        "Can not send metrics: labels should be a type of dict.")) := rfl

/-- C2: Evidence against the claim. The claim says a non-dict labels
argument raises `NoLabelsError`; but the inverted `isinstance` check
lets any non-dict value of positive length through, and the call issues
a POST and returns the response.  Evaluated at a concrete sender, value
`1` and a non-dict labels value of length `1` (e.g. the list
`["job"]`). -/
theorem c2_send_with_nondict_posts :
    (BasePushpromMetricSender.mk "http://localhost:9091" "requests_total"
        "counter" "Total requests.").send 1 (.nonDict 1)
      (fun _ => ⟨200, "ok"⟩)
    = ([⟨"http://localhost:9091",
          ⟨"counter", "requests_total", "Total requests.", "add", 1,
            .nonDict 1⟩⟩],
       .ok ⟨200, "ok"⟩) := rfl

/-- C10: Whenever `send` (or `send_counter` / `send_gauge`) raises
`NoLabelsError`, it has issued no HTTP POST, and the sender's state
(all base fields, and the `Counter`/`Gauge` accumulator) is exactly as
it was before the call. -/
theorem c10_no_post_and_no_mutation_on_error
    (self : BasePushpromMetricSender) (value : Rat) (labels : Labels)
    (net : HttpPost → Response) (c : Counter) (g : Gauge)
    (lc lg : Labels) :
    (∀ msg, (self.send value labels net).2 = .error (.noLabelsError msg) →
      (self.send value labels net).1 = []) ∧
    (∀ msg, (c.send_counter lc net).2.2 = .error (.noLabelsError msg) →
      (c.send_counter lc net).2.1 = [] ∧ (c.send_counter lc net).1 = c) ∧
    (∀ msg, (g.send_gauge lg net).2.2 = .error (.noLabelsError msg) →
      (g.send_gauge lg net).2.1 = [] ∧ (g.send_gauge lg net).1 = g) := by
  have key : ∀ (b : BasePushpromMetricSender) (v : Rat) (l : Labels) (msg : String),
      (b.send v l net).2 = .error (.noLabelsError msg) → (b.send v l net).1 = [] := by
    intro b v l msg hmsg
    unfold BasePushpromMetricSender.send at hmsg ⊢
    split at hmsg
    · simp_all
    · split at hmsg
      · simp_all
      · simp at hmsg
  exact ⟨fun msg h => key self value labels msg h,
    fun msg h => ⟨key c.base (c.counter : Rat) lc msg h, rfl⟩,
    fun msg h => ⟨key g.base g.counter lg msg h, rfl⟩⟩

/-- Witness for C10: a dict labels argument makes `send` raise
`NoLabelsError`, and indeed no POST is issued. -/
theorem c10_no_post_and_no_mutation_on_error_witness :
    ((BasePushpromMetricSender.mk "http://localhost:9091" "requests_total"
        "counter" "Total requests.").send 1 (.dict [("job", "app")])
      (fun _ => ⟨200, "ok"⟩)).1 = [] :=
  (c10_no_post_and_no_mutation_on_error
    (BasePushpromMetricSender.mk "http://localhost:9091" "requests_total"
      "counter" "Total requests.") 1 (.dict [("job", "app")])
    (fun _ => ⟨200, "ok"⟩)
    (Counter.mk ⟨"u", "m", "counter", "h"⟩ 0)
    (Gauge.mk ⟨"u", "m", "gauge", "h"⟩ 0)
    (.dict []) (.dict [])).1
    "Can not send metrics: labels should be a type of dict." rfl
